import Mathlib

/-!
Verification of the ModelEvalHub run-orchestration core: a shallow embedding
of the worker consumer loop (`crates/worker/src/main.rs`), the run state
tracker (`crates/domain/src/runs.rs`), and the result-persistence router
(`crates/domain/src/result_store.rs`, `metrics.rs`, `sample_outputs.rs`),
over the shared data model of `crates/shared/src/eval.rs`.

External collaborators (serde_json parsing, UUID parsing, the Redis queue,
the external evaluation process, and the SQL/ClickHouse/S3 backends) are
modelled as explicit parameters or as state-transformer effects; JSON values
are modelled by an inductive AST (`Json`) in which numbers are integers —
no claim below inspects a floating-point payload.
-/

namespace ModelEvalHub

/-- A JSON value, the model of `serde_json::Value`.  Numbers are modelled as
integers; float-valued payloads are orthogonal to every claim proved here. -/
inductive Json where
  | null
  | bool (b : Bool)
  | num (n : Int)
  | str (s : String)
  | arr (items : List Json)
  | obj (fields : List (String × Json))
deriving Inhabited

/-- Escape one character the way `serde_json` renders string contents. -/
def escapeChar (c : Char) : String :=
  if c = '"' then "\\\""
  else if c = '\\' then "\\\\"
  else if c = '\n' then "\\n"
  else if c = '\r' then "\\r"
  else if c = '\t' then "\\t"
  else String.singleton c

/-- Escape a whole string for JSON rendering. -/
def escapeString (s : String) : String :=
  s.foldl (fun acc c => acc ++ escapeChar c) ""

mutual
/-- Render a JSON value to text: the model of `serde_json::to_string` on a
`Value` (which never fails). -/
def Json.render : Json → String
  | .null => "null"
  | .bool true => "true"
  | .bool false => "false"
  | .num n => toString n
  | .str s => "\"" ++ escapeString s ++ "\""
  | .arr es => "[" ++ Json.renderArr es ++ "]"
  | .obj ms => "\x7b" ++ Json.renderObj ms ++ "\x7d"

/-- Render array elements, comma separated. -/
def Json.renderArr : List Json → String
  | [] => ""
  | [e] => Json.render e
  | e :: es => Json.render e ++ "," ++ Json.renderArr es

/-- Render object members, comma separated. -/
def Json.renderObj : List (String × Json) → String
  | [] => ""
  | [(k, v)] => "\"" ++ escapeString k ++ "\":" ++ Json.render v
  | (k, v) :: ms => "\"" ++ escapeString k ++ "\":" ++ Json.render v ++ "," ++ Json.renderObj ms
end

/-- Field lookup in a JSON object, the model of indexing a serde map. -/
def Json.getField (members : List (String × Json)) (key : String) : Option Json :=
  match members with
  | [] => none
  | (k, v) :: rest => if k = key then some v else Json.getField rest key

/-- Source `shared/src/eval.rs`: the evaluation engine selector. -/
inductive EvalEngine where
  | LmEvalHarness
  | OpenCompass
  | Helm
  | DeepEval
  | OpenAiEvals
deriving DecidableEq

/-- Rust `format!("{:?}", engine)` on the derived Debug of `EvalEngine`. -/
def engineDebug : EvalEngine → String
  | .LmEvalHarness => "LmEvalHarness"
  | .OpenCompass => "OpenCompass"
  | .Helm => "Helm"
  | .DeepEval => "DeepEval"
  | .OpenAiEvals => "OpenAiEvals"

/-- Source `shared/src/eval.rs`: task type tag. -/
inductive TaskType where
  | Qa
  | Summarization
  | Rag
  | CodeGen
  | Classification
  | Custom
deriving DecidableEq

/-- Source `shared/src/eval.rs`: dataset source tag. -/
inductive DatasetSource where
  | BuiltIn
  | Uploaded
  | External
deriving DecidableEq

/-- Source `shared/src/eval.rs`: model reference inside a run configuration. -/
structure ModelConfig where
  logical_name : String
  provider : String
  model_name : String
  endpoint : Option String
  api_key_ref : Option String
  extra : Option Json

/-- Source `shared/src/eval.rs`: dataset reference inside a run configuration. -/
structure DatasetConfig where
  source : DatasetSource
  name : String
  split : Option String
  uri : Option String
  filters : Option Json

/-- Source `shared/src/eval.rs`: task reference inside a run configuration. -/
structure TaskConfig where
  task_type : TaskType
  task_name : String
  args : Json

/-- Source `shared/src/eval.rs`: one requested metric. -/
structure MetricConfig where
  name : String
  metric_type : String
  params : Option Json

/-- Source `shared/src/eval.rs`: sampling parameters (floats carried opaquely). -/
structure SamplingConfig where
  max_tokens : Option Nat
  temperature : Option Float
  top_p : Option Float
  stop_sequences : Option (List String)
  seed : Option Nat

/-- Source `shared/src/eval.rs`: resource hints. -/
structure ResourceConfig where
  priority : Option Nat
  num_gpus : Option Nat
  gpu_type : Option String
  cpu_cores : Option Nat
  memory_gb : Option Nat
  timeout_seconds : Option Nat

/-- Source `shared/src/eval.rs`: the per-run output-mode selector (`OutputConfig`). -/
inductive OutputConfig where
  | DbOnly
  | ObjectStore (samples_uri : String) (format : String)
  | ClickHouse (table : String)
  | Hybrid (ch_table : String) (samples_uri : Option String)

/-- Source `shared/src/eval.rs`: run status enum. -/
inductive RunStatus where
  | Queued
  | Running
  | Completed
  | FailedConfig
  | FailedEngine
  | FailedInfra
  | TimedOut
  | Cancelled
deriving DecidableEq

/-- Source `shared/src/eval.rs`: error taxonomy. -/
inductive EvalErrorKind where
  | Config
  | Engine
  | Infra
  | Timeout
  | Cancelled
  | Unknown
deriving DecidableEq

/-- Source `shared/src/eval.rs`: structured error payload. -/
structure EvalErrorPayload where
  kind : EvalErrorKind
  message : String
  code : Option String
  engine : Option String
  details : Option Json

/-- Source `shared/src/eval.rs`: one aggregate metric record. -/
structure MetricRecord where
  run_id : String
  dataset : String
  subset : Option String
  split : Option String
  metric_name : String
  value : Float
  n_samples : Option Int
  ci_low : Option Float
  ci_high : Option Float
  extra : Option Json

/-- Source `shared/src/eval.rs`: per-sample token counts. -/
structure TokenCount where
  prompt_tokens : Int
  completion_tokens : Int
  total_tokens : Int

/-- Source `shared/src/eval.rs`: per-sample error payload. -/
structure SampleError where
  message : String
  code : Option String

/-- Source `shared/src/eval.rs`: one per-sample output record. -/
structure SampleRecord where
  run_id : String
  dataset : String
  subset : Option String
  split : Option String
  sample_index : Int
  input : String
  reference : Option String
  output : String
  metrics : Option Json
  latency_ms : Option Int
  token_counts : Option TokenCount
  error : Option SampleError

/-- Source `shared/src/eval.rs`: where a result samples live. -/
inductive SampleResultLocation where
  | Inline (samples : List SampleRecord)
  | ObjectStore (uri : String) (format : String)
  | ClickHouse (table : String)
  | NoneLoc

/-- Source `shared/src/eval.rs`: the full run configuration dequeued by the worker. -/
structure EvalConfig where
  run_id : String
  project_id : String
  engine : EvalEngine
  engine_version : Option String
  model : ModelConfig
  dataset : DatasetConfig
  task : TaskConfig
  metrics : List MetricConfig
  sampling : SamplingConfig
  resources : ResourceConfig
  output : OutputConfig
  metadata : Option Json

/-- Source `shared/src/eval.rs`: the result produced by an evaluation adapter. -/
structure EvalResult where
  run_id : String
  status : RunStatus
  started_at : Int
  completed_at : Int
  metrics : List MetricRecord
  samples : SampleResultLocation
  error : Option EvalErrorPayload

/-! ## Run state tracker (`domain/src/runs.rs`) -/

/-- Source `runs.rs` `status_to_str`: the stored string encoding of a status. -/
def status_to_str (status : RunStatus) : String :=
  match status with
  | .Queued => "queued"
  | .Running => "running"
  | .Completed => "completed"
  | .FailedConfig => "failed_config"
  | .FailedEngine => "failed_engine"
  | .FailedInfra => "failed_infra"
  | .TimedOut => "timed_out"
  | .Cancelled => "cancelled"

/-- Source `runs.rs` `status_from_str`: decode a stored status string; any
unrecognized value falls through to `Queued`. -/
def status_from_str (value : String) : RunStatus :=
  match value with
  | "queued" => .Queued
  | "running" => .Running
  | "completed" => .Completed
  | "failed_config" => .FailedConfig
  | "failed_engine" => .FailedEngine
  | "failed_infra" => .FailedInfra
  | "timed_out" => .TimedOut
  | "cancelled" => .Cancelled
  | _ => .Queued

/-- Rust `format!("{:?}", kind).to_lowercase()` as used by `update_status`
to encode the error kind column. -/
def errKindToStr (kind : EvalErrorKind) : String :=
  match kind with
  | .Config => "config"
  | .Engine => "engine"
  | .Infra => "infra"
  | .Timeout => "timeout"
  | .Cancelled => "cancelled"
  | .Unknown => "unknown"

/-- Source `runs.rs` `row_to_run`: decode the stored error-kind column; anything
unrecognized becomes `Unknown`. -/
def errKindFromStr (value : String) : EvalErrorKind :=
  match value with
  | "config" => .Config
  | "engine" => .Engine
  | "infra" => .Infra
  | "timeout" => .Timeout
  | "cancelled" => .Cancelled
  | _ => .Unknown

/-- The columns of one `runs` table row that the core reads and writes
(the `row_to_run` SELECT list plus `updated_at`). -/
structure RunRow where
  id : String
  experiment_id : String
  project_id : String
  model_impl_id : String
  checkpoint_id : String
  task_id : String
  run_type : String
  status : String
  error_kind : Option String
  error_code : Option String
  error_message : Option String
  error_engine : Option String
  error_details_json : Option String
  started_at : Option Int
  finished_at : Option Int
  eval_config_json : String
  updated_at : Int

/-- Source `runs.rs` `update_status`: the single UPDATE statement, as a transformer
of the run row.  Every bound column is written on every call: `status`
unconditionally, each error column from the optional payload (NULL when the
payload is absent), and `updated_at` from the database clock `now`. -/
def update_status (row : RunRow) (now : Int) (status : RunStatus)
    (error : Option EvalErrorPayload) : RunRow :=
  { row with
    status := status_to_str status
    error_kind := error.map (fun e => errKindToStr e.kind)
    error_code := error.bind (fun e => e.code)
    error_message := error.map (fun e => e.message)
    error_engine := error.bind (fun e => e.engine)
    error_details_json :=
      (error.bind (fun e => e.details)).map (fun d => Json.render d)
    updated_at := now }

/-- Source `runs.rs` `Run`: the decoded run record returned by `row_to_run`. -/
structure Run where
  id : String
  experiment_id : String
  project_id : String
  model_impl_id : String
  checkpoint_id : String
  task_id : String
  run_type : String
  status : RunStatus
  error : Option EvalErrorPayload
  started_at : Option Int
  finished_at : Option Int
  eval_config : Json

/-- Source `runs.rs` `row_to_run`, parameterized by the external serde JSON parser
(`parse_json`, whose failure fails the whole read for `eval_config_json` and
degrades to `Value::Null` for the error details) and the external UUID
parser (`parse_uuid`). -/
def row_to_run (parse_json : String → Option Json)
    (parse_uuid : String → Option String) (row : RunRow) : Option Run := do
  let eval_value ← parse_json row.eval_config_json
  let error := row.error_kind.map (fun kind =>
    { kind := errKindFromStr kind
      message := row.error_message.getD ""
      code := row.error_code
      engine := row.error_engine
      details := row.error_details_json.map
        (fun raw => (parse_json raw).getD Json.null) : EvalErrorPayload })
  let id ← parse_uuid row.id
  let experiment_id ← parse_uuid row.experiment_id
  let project_id ← parse_uuid row.project_id
  let model_impl_id ← parse_uuid row.model_impl_id
  let checkpoint_id ← parse_uuid row.checkpoint_id
  let task_id ← parse_uuid row.task_id
  some
    { id := id
      experiment_id := experiment_id
      project_id := project_id
      model_impl_id := model_impl_id
      checkpoint_id := checkpoint_id
      task_id := task_id
      run_type := row.run_type
      status := status_from_str row.status
      error := error
      started_at := row.started_at
      finished_at := row.finished_at
      eval_config := eval_value }

/-! ## Result-persistence router (`domain/src/result_store.rs`,
`metrics.rs`, `sample_outputs.rs`) -/

/-- Which optional backend adapters were configured at startup
(`ResultStoreHandles::new`: `clickhouse` and `object_store` are `Option`s;
the relational store is always present). -/
structure Handles where
  clickhouseConfigured : Bool
  objectStoreConfigured : Bool

/-- The observable persisted state across the three backends: rows in the
relational `metrics` and `sample_outputs` tables, rows in the ClickHouse
metrics and samples tables, objects in the bucket (key with body lines),
and any location pointers recorded against runs.  `dbSampleLocations`
exists so that "recording a location pointer" is expressible; the source
`DbResultStore::save_samples_location` body is `Ok(())`. -/
structure StoresState where
  dbMetrics : List MetricRecord
  chMetrics : List MetricRecord
  dbSamples : List SampleRecord
  chSamples : List SampleRecord
  objObjects : List (String × List Json)
  dbSampleLocations : List (String × SampleResultLocation)

/-- Source `metrics.rs` `save_records` via `DbResultStore::save_metrics`: insert
one relational row per metric record. -/
def dbSaveMetrics (records : List MetricRecord) (st : StoresState) : StoresState :=
  { st with dbMetrics := st.dbMetrics ++ records }

/-- Source `ClickHouseResultStore::save_metrics`: write one analytics row per
metric record. -/
def chSaveMetrics (records : List MetricRecord) (st : StoresState) : StoresState :=
  { st with chMetrics := st.chMetrics ++ records }

/-- Source `sample_outputs.rs` `save_inline` via `DbResultStore::save_samples_inline`:
insert one relational row per sample record; returns the inline location. -/
def dbSaveSamplesInline (records : List SampleRecord) (st : StoresState) :
    StoresState × SampleResultLocation :=
  ({ st with dbSamples := st.dbSamples ++ records },
    SampleResultLocation.Inline records)

/-- Source `ClickHouseResultStore::save_samples_inline`: write one analytics row per
sample record; returns the analytics-table location. -/
def chSaveSamplesInline (samplesTable : String) (records : List SampleRecord)
    (st : StoresState) : StoresState × SampleResultLocation :=
  ({ st with chSamples := st.chSamples ++ records },
    SampleResultLocation.ClickHouse samplesTable)

/-- Source `ObjectStoreResultStore::save_samples_inline`: the object key,
`runs/<run_id>/samples.jsonl`, with the run id taken from the first record
(`records.first()`, falling back to a fresh UUID `fresh` when empty). -/
def objectSamplesKey (fresh : String) (records : List SampleRecord) : String :=
  let run_id := match records with
    | [] => fresh
    | r :: _ => r.run_id
  "runs/" ++ run_id ++ "/samples.jsonl"

/-- Source `domain/src/result_store.rs` `DbResultStore::save_samples_location`:
the body is literally `Ok(())` — nothing is written. -/
def dbSaveSamplesLocation (_run_id : String) (_location : SampleResultLocation)
    (st : StoresState) : StoresState :=
  st

/-- The model of `serde_json::to_string` on a `SampleRecord` (derived
`Serialize`): one JSON object per record, fields in declaration order,
`Option` fields as null-or-value. -/
def sampleToJson (r : SampleRecord) : Json :=
  Json.obj
    [("run_id", Json.str r.run_id),
     ("dataset", Json.str r.dataset),
     ("subset", match r.subset with | none => Json.null | some s => Json.str s),
     ("split", match r.split with | none => Json.null | some s => Json.str s),
     ("sample_index", Json.num r.sample_index),
     ("input", Json.str r.input),
     ("reference", match r.reference with | none => Json.null | some s => Json.str s),
     ("output", Json.str r.output),
     ("metrics", match r.metrics with | none => Json.null | some v => v),
     ("latency_ms", match r.latency_ms with | none => Json.null | some n => Json.num n),
     ("token_counts",
       match r.token_counts with
       | none => Json.null
       | some t => Json.obj
           [("prompt_tokens", Json.num t.prompt_tokens),
            ("completion_tokens", Json.num t.completion_tokens),
            ("total_tokens", Json.num t.total_tokens)]),
     ("error",
       match r.error with
       | none => Json.null
       | some e => Json.obj
           [("message", Json.str e.message),
            ("code", match e.code with | none => Json.null | some c => Json.str c)])]

/-- Decode a JSON value as a string (serde: only a JSON string works). -/
def decodeStr (j : Json) : Option String :=
  match j with
  | .str s => some s
  | _ => none

/-- Decode a JSON value as an integer. -/
def decodeNum (j : Json) : Option Int :=
  match j with
  | .num n => some n
  | _ => none

/-- serde `Option<String>` deserialization: null is `None`, a string is
`Some`, anything else an error. -/
def decodeOptStr (j : Json) : Option (Option String) :=
  match j with
  | .null => some none
  | .str s => some (some s)
  | _ => none

/-- serde `Option<i64>` deserialization. -/
def decodeOptNum (j : Json) : Option (Option Int) :=
  match j with
  | .null => some none
  | .num n => some (some n)
  | _ => none

/-- serde `Option<Value>` deserialization: null becomes `None` (so
`Some(Value::Null)` does not survive a round trip), anything else `Some`. -/
def decodeOptVal (j : Json) : Option (Option Json) :=
  match j with
  | .null => some none
  | v => some (some v)

/-- serde `TokenCount` deserialization from a JSON object. -/
def tokenCountFromJson (j : Json) : Option TokenCount :=
  match j with
  | .obj fields => do
    let p ← (Json.getField fields "prompt_tokens").bind decodeNum
    let c ← (Json.getField fields "completion_tokens").bind decodeNum
    let t ← (Json.getField fields "total_tokens").bind decodeNum
    some { prompt_tokens := p, completion_tokens := c, total_tokens := t }
  | _ => none

/-- serde `Option<TokenCount>` deserialization. -/
def decodeOptTokenCount (j : Json) : Option (Option TokenCount) :=
  match j with
  | .null => some none
  | v => (tokenCountFromJson v).map some

/-- serde `SampleError` deserialization from a JSON object. -/
def sampleErrorFromJson (j : Json) : Option SampleError :=
  match j with
  | .obj fields => do
    let m ← (Json.getField fields "message").bind decodeStr
    let c ← (Json.getField fields "code").bind decodeOptStr
    some { message := m, code := c }
  | _ => none

/-- serde `Option<SampleError>` deserialization. -/
def decodeOptSampleError (j : Json) : Option (Option SampleError) :=
  match j with
  | .null => some none
  | v => (sampleErrorFromJson v).map some

/-- The model of `serde_json::from_str::<SampleRecord>` (derived
`Deserialize`) at the JSON-value level. -/
def sampleFromJson (j : Json) : Option SampleRecord :=
  match j with
  | .obj fields => do
    let run_id ← (Json.getField fields "run_id").bind decodeStr
    let dataset ← (Json.getField fields "dataset").bind decodeStr
    let subset ← (Json.getField fields "subset").bind decodeOptStr
    let split ← (Json.getField fields "split").bind decodeOptStr
    let sample_index ← (Json.getField fields "sample_index").bind decodeNum
    let input ← (Json.getField fields "input").bind decodeStr
    let reference ← (Json.getField fields "reference").bind decodeOptStr
    let output ← (Json.getField fields "output").bind decodeStr
    let metrics ← (Json.getField fields "metrics").bind decodeOptVal
    let latency_ms ← (Json.getField fields "latency_ms").bind decodeOptNum
    let token_counts ← (Json.getField fields "token_counts").bind decodeOptTokenCount
    let error ← (Json.getField fields "error").bind decodeOptSampleError
    some
      { run_id := run_id
        dataset := dataset
        subset := subset
        split := split
        sample_index := sample_index
        input := input
        reference := reference
        output := output
        metrics := metrics
        latency_ms := latency_ms
        token_counts := token_counts
        error := error }
  | _ => none

/-- Source `ObjectStoreResultStore::save_samples_inline`: build the jsonl body
(one JSON-encoded record per line, in order) and put it at the samples key. -/
def objSaveSamplesInline (fresh : String) (records : List SampleRecord)
    (st : StoresState) : StoresState × SampleResultLocation :=
  let key := objectSamplesKey fresh records
  ({ st with objObjects := st.objObjects ++ [(key, records.map sampleToJson)] },
    SampleResultLocation.ObjectStore key "jsonl")

/-- Source `ResultStoreHandles::save_metrics`: the metrics-placement decision.
ClickHouse mode with a configured analytics backend writes there; every
other case writes to the relational store. -/
def routerSaveMetrics (h : Handles) (output : OutputConfig)
    (metrics : List MetricRecord) (st : StoresState) : StoresState :=
  match output with
  | .ClickHouse _ =>
    if h.clickhouseConfigured then chSaveMetrics metrics st
    else dbSaveMetrics metrics st
  | .Hybrid _ _ => dbSaveMetrics metrics st
  | .DbOnly => dbSaveMetrics metrics st
  | .ObjectStore _ _ => dbSaveMetrics metrics st

/-- Source `ResultStoreHandles::save_samples`: the sample-placement decision.
Inline samples dispatch on the output mode with relational fallback when the
preferred backend is unconfigured; a non-inline location is handed to the
relational store `save_samples_location`.  `chTable` is the configured
ClickHouse samples table, `fresh` the UUID the object adapter would mint for
an empty record list. -/
def routerSaveSamples (h : Handles) (chTable : String) (fresh : String)
    (output : OutputConfig) (resultRunId : String)
    (samples : SampleResultLocation) (st : StoresState) : StoresState :=
  match samples with
  | .Inline ss =>
    match output with
    | .DbOnly => (dbSaveSamplesInline ss st).1
    | .ObjectStore _ _ =>
      if h.objectStoreConfigured then (objSaveSamplesInline fresh ss st).1
      else (dbSaveSamplesInline ss st).1
    | .ClickHouse _ =>
      if h.clickhouseConfigured then (chSaveSamplesInline chTable ss st).1
      else (dbSaveSamplesInline ss st).1
    | .Hybrid _ _ =>
      if h.clickhouseConfigured then (chSaveSamplesInline chTable ss st).1
      else (dbSaveSamplesInline ss st).1
  | loc => dbSaveSamplesLocation resultRunId loc st

/-- Source `ResultStoreHandles::persist_eval_result`: metrics placement then sample
placement. -/
def persistEvalResult (h : Handles) (chTable : String) (fresh : String)
    (config : EvalConfig) (result : EvalResult) (st : StoresState) : StoresState :=
  routerSaveSamples h chTable fresh config.output result.run_id result.samples
    (routerSaveMetrics h config.output result.metrics st)

/-! ## Worker consumer loop (`worker/src/main.rs`) -/

/-- How one invocation of the external lm-eval process behaves, as seen
through `LmEvalRunner::run`: an `EvalResult`, a structured `error.json`
payload (`RunnerError::Eval`), or an IO-level failure (`RunnerError::Io`). -/
inductive AdapterOutcome where
  | success (result : EvalResult)
  | evalError (payload : EvalErrorPayload)
  | ioError (msg : String)

/-- The environment one job runs against: the adapter behavior if it is
invoked, and whether `persist_eval_result` succeeds (`none`) or returns an
error message. -/
structure JobEnv where
  adapter : AdapterOutcome
  persistError : Option String

/-- Source `worker/src/main.rs` `RunnerError` (from the lm-eval integration). -/
inductive RunnerError where
  | Eval (payload : EvalErrorPayload)
  | Io (msg : String)
  | NotSupported

/-- The engine dispatch in `process_job`: only `LmEvalHarness` has a runner;
every other engine is answered with `RunnerError::NotSupported`. -/
def runAdapter (config : EvalConfig) (env : JobEnv) : Except RunnerError EvalResult :=
  match config.engine with
  | .LmEvalHarness =>
    match env.adapter with
    | .success result => .ok result
    | .evalError payload => .error (RunnerError.Eval payload)
    | .ioError msg => .error (RunnerError.Io msg)
  | _ => .error RunnerError.NotSupported

/-- Source `worker/src/main.rs` `map_error_to_status`. -/
def map_error_to_status (kind : EvalErrorKind) : RunStatus :=
  match kind with
  | .Config => .FailedConfig
  | .Engine => .FailedEngine
  | .Infra => .FailedInfra
  | .Timeout => .TimedOut
  | .Cancelled => .Cancelled
  | .Unknown => .FailedInfra

/-- The error-payload construction in the `process_job` failure arm. -/
def payloadOfRunnerError (config : EvalConfig) (err : RunnerError) : EvalErrorPayload :=
  match err with
  | .Eval payload => payload
  | .Io msg =>
    { kind := .Infra
      message := msg
      code := none
      engine := some "lm_eval_harness"
      details := none }
  | .NotSupported =>
    { kind := .Engine
      message := "Engine not supported"
      code := none
      engine := some (engineDebug config.engine)
      details := none }

/-- One status transition written through `runs::update_status`. -/
structure StatusWrite where
  run_id : String
  status : RunStatus
  error : Option EvalErrorPayload

/-- Source `worker/src/main.rs` `process_job`: mark Running, dispatch to the
adapter, then either persist and mark Completed, or map the error to a
terminal status.  Returns the ordered status writes performed and the error
`process_job` itself returns (a persistence failure propagates via `?`
before any further status write). -/
def processJob (config : EvalConfig) (env : JobEnv) :
    List StatusWrite × Option String :=
  let running : StatusWrite := { run_id := config.run_id, status := .Running, error := none }
  match runAdapter config env with
  | .ok _ =>
    match env.persistError with
    | some msg => ([running], some msg)
    | none =>
      ([running, { run_id := config.run_id, status := .Completed, error := none }], none)
  | .error err =>
    let payload := payloadOfRunnerError config err
    ([running,
      { run_id := config.run_id
        status := map_error_to_status payload.kind
        error := some payload }], none)

/-- One `blpop` attempt as the loop body sees it: the pooled connection or
the pop itself erroring, an empty poll, or a dequeued payload. -/
inductive DequeueOutcome where
  | queueError (msg : String)
  | empty
  | job (payload : String)

/-- What one iteration of the `main` loop does next: keep looping (having
performed the given status writes) or exit `main` with an error. -/
inductive StepResult where
  | continue_ (writes : List StatusWrite)
  | exit (msg : String)

/-- One iteration of the consumer loop in `worker/src/main.rs` `main`,
parameterized by the external serde parser for the payload and the per-job
environment.  A queue error propagates out of `main` via `?`; an empty poll
sleeps and continues; a payload that fails to deserialize is logged and
dropped; a job error from `process_job` is logged and the loop continues. -/
def workerStep (parse : String → Option EvalConfig)
    (envOf : EvalConfig → JobEnv) (deq : DequeueOutcome) : StepResult :=
  match deq with
  | .queueError msg => .exit msg
  | .empty => .continue_ []
  | .job payload =>
    match parse payload with
    | none => .continue_ []
    | some config => .continue_ (processJob config (envOf config)).1

/-! ## Spec-side definitions (from the words of the specification, for
refinement statements about the router) -/

/-- The three persistence backends named by the spec. -/
inductive Backend where
  | db
  | ch
  | obj
deriving DecidableEq

/-- Modelled from the spec (section 4.4, metrics placement): ClickHouse-like
mode with a configured analytics backend goes to analytics; every other case
to the relational store. -/
def specMetricsBackend (h : Handles) (output : OutputConfig) : Backend :=
  match output with
  | .ClickHouse _ => if h.clickhouseConfigured then .ch else .db
  | _ => .db

/-- Modelled from the spec (section 4.4, sample placement for inline
samples): DbOnly to relational; ObjectStore to the object store if
configured else relational; ClickHouse or Hybrid to analytics if configured
else relational. -/
def specSampleBackend (h : Handles) (output : OutputConfig) : Backend :=
  match output with
  | .DbOnly => .db
  | .ObjectStore _ _ => if h.objectStoreConfigured then .obj else .db
  | .ClickHouse _ => if h.clickhouseConfigured then .ch else .db
  | .Hybrid _ _ => if h.clickhouseConfigured then .ch else .db

/-- The metric records held by one backend in the persisted state (object
storage never holds metrics). -/
def metricsOf (b : Backend) (st : StoresState) : List MetricRecord :=
  match b with
  | .db => st.dbMetrics
  | .ch => st.chMetrics
  | .obj => []

/-- The number of sample records held by one backend (object bodies count
one sample per jsonl line). -/
def sampleCountOf (b : Backend) (st : StoresState) : Nat :=
  match b with
  | .db => st.dbSamples.length
  | .ch => st.chSamples.length
  | .obj => (st.objObjects.map (fun kv => kv.2.length)).sum

/-! ## Example values used by witnesses and counterexamples -/

/-- A concrete run configuration (engine defaults to the supported one). -/
def exampleConfig : EvalConfig :=
  { run_id := "run-1"
    project_id := "proj-1"
    engine := .LmEvalHarness
    engine_version := none
    model :=
      { logical_name := "m", provider := "openai", model_name := "gpt",
        endpoint := none, api_key_ref := none, extra := none }
    dataset :=
      { source := .BuiltIn, name := "mmlu", split := none, uri := none,
        filters := none }
    task := { task_type := .Qa, task_name := "qa", args := Json.null }
    metrics := []
    sampling :=
      { max_tokens := none, temperature := none, top_p := none,
        stop_sequences := none, seed := none }
    resources :=
      { priority := none, num_gpus := none, gpu_type := none,
        cpu_cores := none, memory_gb := none, timeout_seconds := none }
    output := .DbOnly
    metadata := none }

/-- A concrete successful evaluation result for `exampleConfig`. -/
def exampleResult : EvalResult :=
  { run_id := "run-1", status := .Completed, started_at := 0,
    completed_at := 1, metrics := [], samples := .NoneLoc, error := none }

/-- A concrete aggregate metric record. -/
def exampleMetric : MetricRecord :=
  { run_id := "run-1", dataset := "mmlu", subset := none, split := none,
    metric_name := "acc", value := 0.5, n_samples := none, ci_low := none,
    ci_high := none, extra := none }

/-- A concrete sample record with no optional payloads. -/
def exampleSample : SampleRecord :=
  { run_id := "run-1", dataset := "mmlu", subset := none, split := none,
    sample_index := 0, input := "q", reference := none, output := "a",
    metrics := none, latency_ms := none, token_counts := none, error := none }

/-- The same sample but carrying `Some(Value::Null)` as its per-sample
metrics payload. -/
def nullMetricsSample : SampleRecord :=
  { exampleSample with metrics := some Json.null }

/-- The empty persisted state. -/
def emptyStores : StoresState :=
  { dbMetrics := [], chMetrics := [], dbSamples := [], chSamples := [],
    objObjects := [], dbSampleLocations := [] }

/-- Total number of persisted sample records across all three backends. -/
def totalSampleCount (st : StoresState) : Nat :=
  sampleCountOf .db st + sampleCountOf .ch st + sampleCountOf .obj st

/-! ## Claims -/

/-! ### C1: persistence failure after a successful evaluation -/

/-- C1 counterexample: with a successful adapter outcome and a failing
`persist_eval_result`, `process_job` performs only the Running transition
and returns the persistence error — the final status is Running, not
FailedInfra, contradicting the claim that the run always reaches a failed
terminal state. -/
theorem persist_failure_not_failed_infra_cex :
    (processJob exampleConfig
        { adapter := .success exampleResult,
          persistError := some "db write failed" }).1.map
        (fun w => w.status) = [RunStatus.Running] ∧
    (processJob exampleConfig
        { adapter := .success exampleResult,
          persistError := some "db write failed" }).2 = some "db write failed" :=
  ⟨rfl, rfl⟩

/-- C1 (amended): when the adapter succeeds but result persistence fails,
`process_job` propagates the persistence error after the single Running
transition; the run is never marked Completed, but no Infra-classified
terminal status is written either — the run is left in Running. -/
theorem persist_failure_no_terminal_write (config : EvalConfig) (env : JobEnv)
    (result : EvalResult) (msg : String)
    (hengine : config.engine = EvalEngine.LmEvalHarness)
    (hadapter : env.adapter = AdapterOutcome.success result)
    (hpersist : env.persistError = some msg) :
    processJob config env =
      ([{ run_id := config.run_id, status := .Running, error := none }],
        some msg) := by
  simp [processJob, runAdapter, hengine, hadapter, hpersist]

/-- C1 witness: the amended theorem applied at a concrete job. -/
theorem persist_failure_no_terminal_write_witness :
    processJob exampleConfig
        { adapter := .success exampleResult,
          persistError := some "db write failed" } =
      ([{ run_id := exampleConfig.run_id, status := .Running, error := none }],
        some "db write failed") :=
  persist_failure_no_terminal_write exampleConfig
    { adapter := .success exampleResult, persistError := some "db write failed" }
    exampleResult "db write failed" rfl rfl rfl

/-! ### C2: sample placement and location pointers -/

/-- C2 counterexample: when the result reports a location instead of inline
samples, the router hands it to the relational `save_samples_location`,
whose body is `Ok(())` — the persisted state is completely unchanged and in
particular no location pointer is recorded against the run. -/
theorem location_pointer_not_recorded_cex :
    routerSaveSamples { clickhouseConfigured := true, objectStoreConfigured := true }
        "samples" "fresh-uuid" OutputConfig.DbOnly "run-1"
        (SampleResultLocation.ObjectStore "s3://bkt/runs/run-1/samples.jsonl" "jsonl")
        emptyStores = emptyStores ∧
    (routerSaveSamples { clickhouseConfigured := true, objectStoreConfigured := true }
        "samples" "fresh-uuid" OutputConfig.DbOnly "run-1"
        (SampleResultLocation.ObjectStore "s3://bkt/runs/run-1/samples.jsonl" "jsonl")
        emptyStores).dbSampleLocations = [] :=
  ⟨rfl, rfl⟩

/-- C2 (amended): inline samples are dispatched by OutputMode exactly as the
spec says (DbOnly to relational; ObjectStore to the object adapter if
configured else relational; ClickHouse or Hybrid to analytics if configured
else relational), with no sample dropped; a non-inline location is routed to
the relational `save_samples_location`, which is a no-op — nothing is
re-copied but no location pointer is recorded either. -/
theorem sample_placement_router (h : Handles) (chTable fresh rid : String)
    (output : OutputConfig) (ss : List SampleRecord) (st : StoresState) :
    (specSampleBackend h output = Backend.db →
      routerSaveSamples h chTable fresh output rid (.Inline ss) st =
        { st with dbSamples := st.dbSamples ++ ss }) ∧
    (specSampleBackend h output = Backend.ch →
      routerSaveSamples h chTable fresh output rid (.Inline ss) st =
        { st with chSamples := st.chSamples ++ ss }) ∧
    (specSampleBackend h output = Backend.obj →
      routerSaveSamples h chTable fresh output rid (.Inline ss) st =
        { st with objObjects := st.objObjects ++
            [(objectSamplesKey fresh ss, ss.map sampleToJson)] }) ∧
    (totalSampleCount (routerSaveSamples h chTable fresh output rid (.Inline ss) st) =
      totalSampleCount st + ss.length) ∧
    (∀ loc : SampleResultLocation, (∀ t, loc ≠ .Inline t) →
      routerSaveSamples h chTable fresh output rid loc st = st) := by
  refine ⟨?_, ?_, ?_, ?_, ?_⟩
  · intro hb
    cases output <;> cases hcc : h.clickhouseConfigured <;>
      cases hoc : h.objectStoreConfigured <;>
      simp_all [specSampleBackend, routerSaveSamples, dbSaveSamplesInline,
        chSaveSamplesInline, objSaveSamplesInline]
  · intro hb
    cases output <;> cases hcc : h.clickhouseConfigured <;>
      cases hoc : h.objectStoreConfigured <;>
      simp_all [specSampleBackend, routerSaveSamples, dbSaveSamplesInline,
        chSaveSamplesInline, objSaveSamplesInline]
  · intro hb
    cases output <;> cases hcc : h.clickhouseConfigured <;>
      cases hoc : h.objectStoreConfigured <;>
      simp_all [specSampleBackend, routerSaveSamples, dbSaveSamplesInline,
        chSaveSamplesInline, objSaveSamplesInline]
  · cases output <;> cases hcc : h.clickhouseConfigured <;>
      cases hoc : h.objectStoreConfigured <;>
      simp [routerSaveSamples, dbSaveSamplesInline, chSaveSamplesInline,
        objSaveSamplesInline, totalSampleCount, sampleCountOf, hcc, hoc] <;>
      omega
  · intro loc hl
    cases loc with
    | Inline t => exact absurd rfl (hl t)
    | ObjectStore uri fmt => rfl
    | ClickHouse table => rfl
    | NoneLoc => rfl

/-- C2 witness: the amended theorem applied at a concrete object-store run
and at a concrete non-inline location. -/
theorem sample_placement_router_witness :
    routerSaveSamples { clickhouseConfigured := false, objectStoreConfigured := true }
        "samples" "fresh-uuid" (OutputConfig.ObjectStore "s3://bkt" "jsonl") "run-1"
        (.Inline [exampleSample]) emptyStores =
      { emptyStores with objObjects := emptyStores.objObjects ++
          [(objectSamplesKey "fresh-uuid" [exampleSample],
            [exampleSample].map sampleToJson)] } ∧
    routerSaveSamples { clickhouseConfigured := false, objectStoreConfigured := true }
        "samples" "fresh-uuid" (OutputConfig.ObjectStore "s3://bkt" "jsonl") "run-1"
        (SampleResultLocation.ClickHouse "tbl") emptyStores = emptyStores :=
  ⟨(sample_placement_router
      { clickhouseConfigured := false, objectStoreConfigured := true }
      "samples" "fresh-uuid" "run-1" (OutputConfig.ObjectStore "s3://bkt" "jsonl")
      [exampleSample] emptyStores).2.2.1 rfl,
   (sample_placement_router
      { clickhouseConfigured := false, objectStoreConfigured := true }
      "samples" "fresh-uuid" "run-1" (OutputConfig.ObjectStore "s3://bkt" "jsonl")
      [exampleSample] emptyStores).2.2.2.2
      (SampleResultLocation.ClickHouse "tbl") (fun t h => by cases h)⟩

/-! ### C3: metrics placement -/

/-- C3: metrics go to the analytics backend exactly when the output mode is
the ClickHouse variant and that backend is configured; in every other case
(Hybrid, DbOnly, ObjectStore, or analytics unconfigured) every metric record
goes to the relational store, and no record is lost either way. -/
theorem metrics_placement_router (h : Handles) (output : OutputConfig)
    (records : List MetricRecord) (st : StoresState) :
    (specMetricsBackend h output = Backend.ch ↔
      h.clickhouseConfigured = true ∧ ∃ t, output = OutputConfig.ClickHouse t) ∧
    (specMetricsBackend h output = Backend.ch →
      routerSaveMetrics h output records st =
        { st with chMetrics := st.chMetrics ++ records }) ∧
    (specMetricsBackend h output = Backend.db →
      routerSaveMetrics h output records st =
        { st with dbMetrics := st.dbMetrics ++ records }) ∧
    ((routerSaveMetrics h output records st).dbMetrics.length +
        (routerSaveMetrics h output records st).chMetrics.length =
      st.dbMetrics.length + st.chMetrics.length + records.length) := by
  refine ⟨?_, ?_, ?_, ?_⟩
  · cases output <;> cases hcc : h.clickhouseConfigured <;>
      simp [specMetricsBackend, hcc]
  · intro hb
    cases output <;> cases hcc : h.clickhouseConfigured <;>
      simp_all [specMetricsBackend, routerSaveMetrics, chSaveMetrics, dbSaveMetrics]
  · intro hb
    cases output <;> cases hcc : h.clickhouseConfigured <;>
      simp_all [specMetricsBackend, routerSaveMetrics, chSaveMetrics, dbSaveMetrics]
  · cases output <;> cases hcc : h.clickhouseConfigured <;>
      simp [routerSaveMetrics, chSaveMetrics, dbSaveMetrics, hcc] <;> omega

/-- C3 witness: the fallback case — ClickHouse mode with the analytics
backend unconfigured lands the metric in the relational store. -/
theorem metrics_placement_router_witness :
    routerSaveMetrics { clickhouseConfigured := false, objectStoreConfigured := false }
        (OutputConfig.ClickHouse "metrics") [exampleMetric] emptyStores =
      { emptyStores with dbMetrics := emptyStores.dbMetrics ++ [exampleMetric] } :=
  (metrics_placement_router
    { clickhouseConfigured := false, objectStoreConfigured := false }
    (OutputConfig.ClickHouse "metrics") [exampleMetric] emptyStores).2.2.1 rfl

/-! ### C4: the consumer loop -/

/-- C4 counterexample: a queue error on the dequeue attempt propagates out
of `main` via the `?` operator and terminates the loop, contradicting the
claim that the loop continues on every dequeue outcome. -/
theorem queue_error_exits_loop_cex :
    workerStep (fun _ => none)
        (fun _ => { adapter := .ioError "x", persistError := none })
        (.queueError "connection reset") = .exit "connection reset" :=
  rfl

/-- C4 (amended): the consumer loop continues to the next poll on an empty
poll, on a payload that fails to deserialize, and on a job whose processing
returns an error; but an error from the queue itself (connection or blpop)
propagates out of `main` and terminates the loop, and a panic inside a job
is not isolated. -/
theorem consumer_loop_continues_otherwise (parse : String → Option EvalConfig)
    (envOf : EvalConfig → JobEnv) (deq : DequeueOutcome)
    (h : ∀ msg, deq ≠ .queueError msg) :
    ∃ writes, workerStep parse envOf deq = .continue_ writes := by
  cases deq with
  | queueError msg => exact absurd rfl (h msg)
  | empty => exact ⟨[], rfl⟩
  | job payload =>
    cases hp : parse payload with
    | none => exact ⟨[], by simp [workerStep, hp]⟩
    | some config =>
      exact ⟨(processJob config (envOf config)).1, by simp [workerStep, hp]⟩

/-- C4 witness: the amended theorem applied at an empty poll. -/
theorem consumer_loop_continues_otherwise_witness :
    ∃ writes,
      workerStep (fun _ => none)
        (fun _ => { adapter := .ioError "x", persistError := none })
        DequeueOutcome.empty = .continue_ writes :=
  consumer_loop_continues_otherwise (fun _ => none)
    (fun _ => { adapter := .ioError "x", persistError := none })
    DequeueOutcome.empty (fun msg h => by cases h)

/-! ### C5: malformed payloads -/

/-- C5: a dequeued payload that fails to deserialize is logged and dropped —
the loop performs no status write at all (no run record is touched, no
retry) and continues to the next poll. -/
theorem malformed_payload_logged_and_dropped (parse : String → Option EvalConfig)
    (envOf : EvalConfig → JobEnv) (payload : String)
    (h : parse payload = none) :
    workerStep parse envOf (.job payload) = .continue_ [] := by
  simp [workerStep, h]

/-- C5 witness: the theorem applied at a concrete malformed payload. -/
theorem malformed_payload_logged_and_dropped_witness :
    workerStep (fun _ => none)
      (fun _ => { adapter := .ioError "x", persistError := none })
      (.job "not json") = .continue_ [] :=
  malformed_payload_logged_and_dropped (fun _ => none)
    (fun _ => { adapter := .ioError "x", persistError := none })
    "not json" rfl

/-! ### C6: update_status write behavior -/

/-- Helper for C7: serde round trip on one sample record, provided its
per-sample metrics payload is not `Some(Value::Null)` (which serde collapses
to `None` on deserialization). -/
theorem sampleFromJson_sampleToJson (r : SampleRecord)
    (h : r.metrics ≠ some Json.null) :
    sampleFromJson (sampleToJson r) = some r := by
  obtain ⟨rid, ds, sub, sp, idx, inp, ref, out, met, lat, tc, err⟩ := r
  rcases met with _ | v
  · rcases sub with _ | s1 <;> rcases sp with _ | s2 <;> rcases ref with _ | s3 <;>
      rcases lat with _ | n1 <;> rcases tc with _ | t <;> rcases err with _ | e <;>
      first
        | rfl
        | (rcases e with ⟨em, ec⟩; rcases ec with _ | c <;> rfl)
  · have hv : v ≠ Json.null := fun hv => h (by rw [hv])
    rcases v with _ | b | n | s | es | ms
    · exact absurd rfl hv
    all_goals
      rcases sub with _ | s1 <;> rcases sp with _ | s2 <;> rcases ref with _ | s3 <;>
        rcases lat with _ | n1 <;> rcases tc with _ | t <;> rcases err with _ | e <;>
        first
          | rfl
          | (rcases e with ⟨em, ec⟩; rcases ec with _ | c <;> rfl)

/-- C7 counterexample: a sample whose per-sample metrics payload is the JSON
null value does not survive the serialize-then-deserialize round trip —
serde collapses `Some(Value::Null)` to `None`. -/
theorem sample_roundtrip_null_metrics_cex :
    sampleFromJson (sampleToJson nullMetricsSample) ≠ some nullMetricsSample := by
  intro hEq
  have h1 : sampleFromJson (sampleToJson nullMetricsSample) =
      some { nullMetricsSample with metrics := none } := rfl
  rw [h1] at hEq
  have h2 := congrArg (fun o => Option.map SampleRecord.metrics o) hEq
  simp [nullMetricsSample, exampleSample] at h2

/-- C7 (amended): with inline samples handed to the object-store adapter,
the body is stored under `runs/<run_id>/samples.jsonl` (run id taken from
the first record), one JSON-encoded record per line in order, and every line
deserializes back to the original record, provided the record does not carry
the JSON null value as its optional metrics payload. -/
theorem objectstore_sample_layout_roundtrip (fresh : String)
    (records : List SampleRecord) (st : StoresState) (hne : records ≠ []) :
    (objSaveSamplesInline fresh records st).1.objObjects =
      st.objObjects ++
        [("runs/" ++ (records.head hne).run_id ++ "/samples.jsonl",
          records.map sampleToJson)] ∧
    ∀ r ∈ records, r.metrics ≠ some Json.null →
      sampleFromJson (sampleToJson r) = some r := by
  constructor
  · cases records with
    | nil => exact absurd rfl hne
    | cons r rs => rfl
  · intro r _ hm
    exact sampleFromJson_sampleToJson r hm

/-- C7 witness: the amended theorem applied at a concrete one-record list. -/
theorem objectstore_sample_layout_roundtrip_witness :
    ([exampleSample] ≠ ([] : List SampleRecord)) ∧
    (objSaveSamplesInline "fresh" [exampleSample] emptyStores).1.objObjects =
      emptyStores.objObjects ++
        [("runs/" ++ (([exampleSample].head (by simp)).run_id) ++ "/samples.jsonl",
          [exampleSample].map sampleToJson)] ∧
    sampleFromJson (sampleToJson exampleSample) = some exampleSample := by
  refine ⟨by simp, ?_, ?_⟩
  · exact (objectstore_sample_layout_roundtrip "fresh" [exampleSample]
      emptyStores (by simp)).1
  · exact (objectstore_sample_layout_roundtrip "fresh" [exampleSample]
      emptyStores (by simp)).2 exampleSample (by simp)
      (by simp [exampleSample])

/-! ### C8: unsupported engines -/

/-- C8: any run configuration whose engine is not the supported
lm-eval-harness is answered with `RunnerError::NotSupported`, and
`process_job` ends the run as FailedEngine with error kind Engine and
message "Engine not supported". -/
theorem unsupported_engine_maps_to_failed_engine (config : EvalConfig)
    (env : JobEnv) (h : config.engine ≠ EvalEngine.LmEvalHarness) :
    processJob config env =
      ([{ run_id := config.run_id, status := .Running, error := none },
        { run_id := config.run_id, status := .FailedEngine,
          error := some
            { kind := .Engine, message := "Engine not supported",
              code := none, engine := some (engineDebug config.engine),
              details := none } }], none) := by
  cases hE : config.engine with
  | LmEvalHarness => exact absurd hE h
  | _ =>
    simp [processJob, runAdapter, hE, payloadOfRunnerError, map_error_to_status]

/-- C8 witness: the theorem applied at a concrete OpenCompass run. -/
theorem unsupported_engine_maps_to_failed_engine_witness :
    ({ exampleConfig with engine := EvalEngine.OpenCompass } : EvalConfig).engine ≠
      EvalEngine.LmEvalHarness ∧
    processJob { exampleConfig with engine := EvalEngine.OpenCompass }
        { adapter := .ioError "x", persistError := none } =
      ([{ run_id := "run-1", status := .Running, error := none },
        { run_id := "run-1", status := .FailedEngine,
          error := some
            { kind := .Engine, message := "Engine not supported",
              code := none, engine := some "OpenCompass",
              details := none } }], none) :=
  ⟨fun hc => EvalEngine.noConfusion hc,
   unsupported_engine_maps_to_failed_engine
     { exampleConfig with engine := EvalEngine.OpenCompass }
     { adapter := .ioError "x", persistError := none }
     (fun hc => EvalEngine.noConfusion hc)⟩

/-! ### C9: idempotence of terminal transitions -/

/-- C9: calling `update_status` twice in succession with the same status and
the same error payload is a no-op in observable effect — the run record read
back through `row_to_run` (status and every error field) after the second
call is identical to that after the first, for any external JSON and UUID
parsers and any database clock readings. -/
theorem update_status_terminal_idempotent (parse_json : String → Option Json)
    (parse_uuid : String → Option String) (row : RunRow) (n1 n2 : Int)
    (s : RunStatus) (e : Option EvalErrorPayload) :
    row_to_run parse_json parse_uuid
        (update_status (update_status row n1 s e) n2 s e) =
      row_to_run parse_json parse_uuid (update_status row n1 s e) :=
  rfl

/-! ### C10: status string round trip -/

/-- C10: the status string encoding round-trips for all eight statuses, and
any unrecognized stored status string is read back as the non-terminal state
Queued. -/
theorem status_string_roundtrip_unknown_queued :
    (∀ s : RunStatus, status_from_str (status_to_str s) = s) ∧
    (∀ v : String,
      v ∉ ["queued", "running", "completed", "failed_config", "failed_engine",
        "failed_infra", "timed_out", "cancelled"] →
      status_from_str v = RunStatus.Queued) := by
  constructor
  · intro s
    cases s <;> rfl
  · intro v hv
    unfold status_from_str
    split <;> simp_all

/-- C10 witness: the round trip at FailedInfra and the default at a string
outside the eight known encodings. -/
theorem status_string_roundtrip_unknown_queued_witness :
    status_from_str (status_to_str RunStatus.FailedInfra) = RunStatus.FailedInfra ∧
    status_from_str "bogus" = RunStatus.Queued :=
  ⟨status_string_roundtrip_unknown_queued.1 RunStatus.FailedInfra,
   status_string_roundtrip_unknown_queued.2 "bogus" (by decide)⟩

end ModelEvalHub
